import Mathlib

/-
Shallow embedding of the mention-polling bot in src/main.py.

Conventions of the embedding:
  * Python str is modelled as List Char.
  * Wall-clock time enters only through the first-of-month timestamp
    computed by datetime.now().replace(day=1, ...); months are linearly
    ordered, so that timestamp is modelled as a Nat month index passed
    explicitly to every operation that reads the clock.
  * Python exceptions raised by external collaborators (the Tweepy client)
    are modelled as Except / Bool-valued outcome parameters; a try/except
    block that swallows the exception becomes the corresponding branch of
    the Lean function, so every function is total and the structured
    value it returns models the HTTP-level result.
  * logger.warning / logger.info side effects are modelled as Bool flags
    returned alongside the new state where a claim mentions them.
-/

set_option autoImplicit false

namespace TwitterBot

/-! ## UsageTracker (src/main.py lines 44-88) -/

/-- State of the UsageTracker class: three monthly counters plus the
month-start timestamp last_reset (a Nat month index). -/
structure UsageTracker where
  reads_this_month : Nat
  posts_this_month_app : Nat
  posts_this_month_user : Nat
  last_reset : Nat
deriving DecidableEq, Repr

/-- UsageTracker.__init__, executed at a moment whose month start is m. -/
def UsageTracker.init (m : Nat) : UsageTracker :=
  { reads_this_month := 0
    posts_this_month_app := 0
    posts_this_month_user := 0
    last_reset := m }

/-- UsageTracker._check_reset: if the current month start is later than
last_reset, zero all three counters and advance last_reset. -/
def check_reset (m : Nat) (u : UsageTracker) : UsageTracker :=
  if m > u.last_reset then
    { reads_this_month := 0
      posts_this_month_app := 0
      posts_this_month_user := 0
      last_reset := m }
  else u

/-- UsageTracker.increment_read. The Bool is the warning logged when the
post-increment value exceeds the free-tier read ceiling of 100. -/
def increment_read (m : Nat) (u : UsageTracker) : UsageTracker × Bool :=
  let u0 := check_reset m u
  let u1 := { u0 with reads_this_month := u0.reads_this_month + 1 }
  (u1, decide (u1.reads_this_month > 100))

/-- UsageTracker.increment_post. The two Bools are the app-level and
user-level warnings logged when the respective post-increment counter
exceeds the free-tier post ceiling of 500. -/
def increment_post (m : Nat) (u : UsageTracker) : UsageTracker × Bool × Bool :=
  let u0 := check_reset m u
  let u1 := { u0 with
    posts_this_month_app := u0.posts_this_month_app + 1
    posts_this_month_user := u0.posts_this_month_user + 1 }
  (u1, decide (u1.posts_this_month_app > 500),
       decide (u1.posts_this_month_user > 500))

/-- Result dictionary of UsageTracker.get_usage_stats. Nat subtraction
truncates at zero, matching max(0, limit - used). -/
structure UsageStats where
  reads_this_month : Nat
  posts_this_month_app : Nat
  posts_this_month_user : Nat
  reads_remaining : Nat
  posts_remaining_app : Nat
  posts_remaining_user : Nat
  last_reset : Nat
deriving DecidableEq, Repr

/-- UsageTracker.get_usage_stats: runs the rollover check, then reports a
snapshot. Returns the snapshot together with the (possibly reset) state. -/
def get_usage_stats (m : Nat) (u : UsageTracker) : UsageStats × UsageTracker :=
  let u0 := check_reset m u
  ({ reads_this_month := u0.reads_this_month
     posts_this_month_app := u0.posts_this_month_app
     posts_this_month_user := u0.posts_this_month_user
     reads_remaining := 100 - u0.reads_this_month
     posts_remaining_app := 500 - u0.posts_this_month_app
     posts_remaining_user := 500 - u0.posts_this_month_user
     last_reset := u0.last_reset }, u0)

/-- A read or post recording call against the tracker, all within a single
wall-clock month (the month index is supplied to the run function). -/
inductive UsageOp where
  | read
  | post
deriving DecidableEq, Repr

/-- Apply one recording call at month m, keeping only the state. -/
def applyUsageOp (m : Nat) (u : UsageTracker) : UsageOp → UsageTracker
  | .read => (increment_read m u).1
  | .post => (increment_post m u).1

/-- Run a sequence of recording calls, all at month m. -/
def runUsageOps (m : Nat) (ops : List UsageOp) (u : UsageTracker) : UsageTracker :=
  ops.foldl (applyUsageOp m) u

/-- Number of read calls in a sequence. -/
def countReads : List UsageOp → Nat
  | [] => 0
  | .read :: t => countReads t + 1
  | .post :: t => countReads t

/-- Number of post calls in a sequence. -/
def countPosts : List UsageOp → Nat
  | [] => 0
  | .read :: t => countPosts t
  | .post :: t => countPosts t + 1

/-! ## Processed-mentions dedup cache (src/main.py lines 187, 305, 333, 410-416) -/

/-- Membership test mention_id in processed_mentions. -/
def is_processed (s : Finset Nat) (id : Nat) : Bool :=
  decide (id ∈ s)

/-- processed_mentions.add(mention_id). -/
def mark_processed (s : Finset Nat) (id : Nat) : Finset Nat :=
  insert id s

/-- Endpoint clear_processed_mentions: records len(processed_mentions),
clears the set, and reports the count removed. -/
def clear_processed (s : Finset Nat) : Nat × Finset Nat :=
  (s.card, ∅)

/-! ## Reply text post-processing (src/main.py lines 317-322) -/

/-- Python slicing s[:k] for an arbitrary integer k: for k >= 0 the first
k characters (clamped at the length), for k < 0 the first len(s)+k
characters (clamped at zero). -/
def pySliceTo (s : List Char) (k : Int) : List Char :=
  if 0 ≤ k then s.take k.toNat else s.take ((s.length : Int) + k).toNat

/-- The three-character ellipsis marker appended on truncation. -/
def ellipsis : List Char := ['.', '.', '.']

/-- Line 317-318: if bot_config.response_prefix is truthy (neither None nor
the empty string), prepend it, separated by a single space. -/
def applyPrefixToReply (p : Option (List Char)) (reply : List Char) : List Char :=
  match p with
  | some q => if q ≠ [] then q ++ ' ' :: reply else reply
  | none => reply

/-- Line 321-322: if the reply is longer than tweet_max_length, keep the
slice reply[:tweet_max_length - 3] and append the ellipsis marker. -/
def truncateReply (maxLen : Int) (t : List Char) : List Char :=
  if (t.length : Int) > maxLen then pySliceTo t (maxLen - 3) ++ ellipsis else t

/-- The full post-processing applied to a generated reply: prefix, then
length enforcement. -/
def postprocessReply (p : Option (List Char)) (maxLen : Int) (reply : List Char) :
    List Char :=
  truncateReply maxLen (applyPrefixToReply p reply)

/-! ## BotConfig (src/main.py lines 169-184) and configure_bot (199-204) -/

/-- Field-for-field embedding of the BotConfig pydantic model with its
declared defaults; integer fields are Int since pydantic int fields carry
no range constraint. -/
structure BotConfig where
  enabled : Bool := true
  check_interval_seconds : Int := 60
  max_mentions_per_check : Int := 10
  response_prefix : Option (List Char) := none
  use_llm : Bool := false
  llm_system_prompt : List Char :=
    String.toList "You are a helpful Twitter bot that responds to users concisely and accurately."
  tweet_max_length : Int := 280
  store_processed_mentions : Bool := true
deriving DecidableEq, Repr

/-- The module-level bot_config singleton created at import time:
BotConfig(enabled=False). -/
def initialBotConfig : BotConfig := { enabled := false }

/-- Endpoint configure_bot: unconditionally replaces the stored config with
the request body. -/
def configure_bot (_old new : BotConfig) : BotConfig := new

/-- Modelled from the spec, for comparison with configure_bot: the validity
constraints the spec attaches to BotConfig (poll interval at least one
second, at least one mention per cycle, reply length at least one). The
source performs no such check. -/
def specValidConfig (c : BotConfig) : Bool :=
  decide (1 ≤ c.check_interval_seconds) &&
  decide (1 ≤ c.max_mentions_per_check) &&
  decide (1 ≤ c.tweet_max_length)

/-! ## Reply generation (src/main.py lines 352-407) -/

/-- generate_simple_reply: deterministic template around the mention text. -/
def generate_simple_reply (mention_text : List Char) : List Char :=
  String.toList "Thanks for mentioning me! I'm a Twitter bot running on FastAPI. Your message was: '"
    ++ mention_text ++ String.toList "'"

/-! ## process_mentions (src/main.py lines 280-350) -/

/-- A mention as consumed by the cycle: id, author_id and text. -/
structure Mention where
  id : Nat
  author_id : Nat
  text : List Char
deriving DecidableEq, Repr

/-- The mutable module-level state touched by a cycle: the dedup set and
the usage tracker. -/
structure BotState where
  processed_mentions : Finset Nat
  usage : UsageTracker
deriving DecidableEq

/-- The three shapes of dictionary process_mentions returns: the outer
except branch, the empty-mentions early return, and the normal return
carrying reply_count. -/
inductive CycleOutcome where
  | error
  | noMentions
  | processed (reply_count : Nat)
deriving DecidableEq, Repr

/-- One iteration of the for-loop over mentions.data: skip when the dedup
store is on and the id was already processed; otherwise generate the reply
(llmGen stands for the external generate_llm_reply capability), apply the
prefix and length post-processing, and attempt create_tweet. submitOk gives
the outcome of that external call on the mention id and reply text; on
success the id is recorded (when storing is on) and the post counter
incremented, on failure the exception is logged and the state is left
untouched. -/
def processOneMention (cfg : BotConfig) (llmGen : List Char → List Char)
    (submitOk : Nat → List Char → Bool) (m : Nat)
    (st : BotState) (reply_count : Nat) (mn : Mention) : BotState × Nat :=
  if cfg.store_processed_mentions ∧ mn.id ∈ st.processed_mentions then
    (st, reply_count)
  else
    let base := if cfg.use_llm then llmGen mn.text else generate_simple_reply mn.text
    let rp := BotConfig.response_prefix cfg
    let reply := postprocessReply rp cfg.tweet_max_length base
    if submitOk mn.id reply then
      ({ processed_mentions :=
           if cfg.store_processed_mentions then insert mn.id st.processed_mentions
           else st.processed_mentions
         usage := (increment_post m st.usage).1 }, reply_count + 1)
    else
      (st, reply_count)

/-- The for-loop over a fetched batch, threading state and reply_count. -/
def processMentionList (cfg : BotConfig) (llmGen : List Char → List Char)
    (submitOk : Nat → List Char → Bool) (m : Nat)
    (ms : List Mention) (st : BotState) (reply_count : Nat) : BotState × Nat :=
  ms.foldl (fun p mn => processOneMention cfg llmGen submitOk m p.1 p.2 mn)
    (st, reply_count)

/-- One full cycle. fetched models the combined outcome of client.get_me
and client.get_users_mentions: Except.error is an exception from either
call (caught by the outer try, which returns the error dictionary), and a
successful fetch yields the list mentions.data, with None modelled as the
empty list (both are falsy at the early-return check). The read counter is
incremented before either external call is attempted. -/
def process_mentions (cfg : BotConfig) (llmGen : List Char → List Char)
    (submitOk : Nat → List Char → Bool) (m : Nat)
    (fetched : Except Unit (List Mention)) (st : BotState) :
    BotState × CycleOutcome :=
  let st1 : BotState := { st with usage := (increment_read m st.usage).1 }
  match fetched with
  | .error _ => (st1, .error)
  | .ok ms =>
    if ms.isEmpty then (st1, .noMentions)
    else
      let r := processMentionList cfg llmGen submitOk m ms st1 0
      (r.1, .processed r.2)

/-! ## Scheduler lifecycle (src/main.py lines 206-277) -/

/-- The module-level scheduler state: bot_config.enabled, the
mention_check_running flag, whether mention_check_task currently holds a
thread object, and how many started worker threads are still alive (their
loop has not yet exited). -/
structure SchedState where
  enabled : Bool
  mention_check_running : Bool
  task_some : Bool
  workers : Nat
deriving DecidableEq, Repr

/-- State at import time: bot disabled, no task, no thread. -/
def schedInit : SchedState := ⟨false, false, false, 0⟩

/-- start_background_mention_check: returns early if mention_check_running
is already set; otherwise sets the flag, starts a new worker thread and
stores it in mention_check_task. -/
def start_background_mention_check (s : SchedState) : SchedState :=
  if s.mention_check_running then s
  else { s with mention_check_running := true, task_some := true,
                workers := s.workers + 1 }

/-- Endpoint enable_bot: sets enabled and, when mention_check_task is None,
calls start_background_mention_check. -/
def enable_bot (s : SchedState) : SchedState :=
  let s1 := { s with enabled := true }
  if s1.task_some then s1 else start_background_mention_check s1

/-- Endpoint disable_bot: clears enabled, clears mention_check_running and
drops the stored task reference. The worker threads themselves only
observe this at their next loop-condition check. -/
def disable_bot (s : SchedState) : SchedState :=
  { s with enabled := false, mention_check_running := false,
           task_some := false }

/-- One live worker reaches the top of its while loop and evaluates
mention_check_running and bot_config.enabled: if both hold it runs another
cycle and remains alive, otherwise it exits the loop, clearing
mention_check_running on the way out. -/
def workerRecheck (s : SchedState) : SchedState :=
  if 0 < s.workers ∧ ¬(s.mention_check_running ∧ s.enabled) then
    { s with workers := s.workers - 1, mention_check_running := false }
  else s

/-- Interleaved control-plane calls and worker loop-condition checks. -/
inductive SchedAction where
  | enable
  | disable
  | workerStep
deriving DecidableEq, Repr

/-- Apply one action to the scheduler state. -/
def schedStep (s : SchedState) : SchedAction → SchedState
  | .enable => enable_bot s
  | .disable => disable_bot s
  | .workerStep => workerRecheck s

/-- Run a sequence of actions from the import-time state. -/
def schedRun (acts : List SchedAction) : SchedState :=
  acts.foldl schedStep schedInit

/-! ## Derived scenario data and operation alphabets used by the theorems -/

/-- Any state-mutating call on the usage tracker singleton, tagged with the
month index at which it runs: increment_read, increment_post, or the
rollover check performed by get_usage_stats. -/
inductive TrackerOp where
  | read (m : Nat)
  | post (m : Nat)
  | stats (m : Nat)
deriving DecidableEq, Repr

/-- Apply one tracker call, keeping only the state. -/
def applyTrackerOp (u : UsageTracker) : TrackerOp → UsageTracker
  | .read m => (increment_read m u).1
  | .post m => (increment_post m u).1
  | .stats m => (get_usage_stats m u).2

/-- Batch for the three-mention scenario: ids 1, 2, 3. -/
def scenarioMentions : List Mention :=
  [⟨1, 10, String.toList "a"⟩, ⟨2, 11, String.toList "b"⟩, ⟨3, 12, String.toList "c"⟩]

/-- State before the scenario cycle: mention 1 already processed, fresh
tracker whose period started at month 7. -/
def scenarioState : BotState :=
  { processed_mentions := {1}, usage := UsageTracker.init 7 }

/-- Configuration for the scenario: defaults with the bot enabled. -/
def scenarioConfig : BotConfig := { enabled := true }

/-- A configuration violating the spec-side validity constraints: zero
poll interval and zero reply length. -/
def invalidConfig : BotConfig :=
  { enabled := true, check_interval_seconds := 0, tweet_max_length := 0 }

/-! ## Shared lemmas -/

/-- The rollover check is a no-op while the wall clock is still inside the
current period. -/
lemma check_reset_of_le (m : Nat) (u : UsageTracker) (h : ¬ m > u.last_reset) :
    check_reset m u = u := by
  simp [check_reset, h]

/-- The rollover check never moves last_reset backwards, and after it the
clock month is not ahead of last_reset when it was not ahead of m itself. -/
lemma check_reset_last_reset (m : Nat) (u : UsageTracker) :
    (check_reset m u).last_reset = max m u.last_reset := by
  unfold check_reset
  split <;> simp <;> omega

/-! ## C1: reply post-processing -/

/-- C1 counterexample: with max_reply_length 1 (allowed by the claim, which
quantifies over every max_reply_length at least 1) and the four-character
reply abcd, the Python slice index 1 - 3 = -2 is negative, so the code
keeps all but the last two characters and appends the three-dot marker,
producing five characters — longer than the limit. -/
theorem postprocess_exceeds_limit_at_one :
    (postprocessReply none 1 (String.toList "abcd")).length = 5 ∧
    ¬ (((postprocessReply none 1 (String.toList "abcd")).length : Int) ≤ 1) := by
  decide

/-- C1 (amended): for every reply text, every optional response prefix and
every tweet_max_length of at least 3, the post-processed reply is at most
tweet_max_length characters, and whenever the prefixed text exceeds
tweet_max_length the output is exactly tweet_max_length characters and
ends with the ellipsis marker. -/
theorem postprocess_truncation_correct (p : Option (List Char)) (reply : List Char)
    (maxLen : Int) (h3 : 3 ≤ maxLen) :
    ((postprocessReply p maxLen reply).length : Int) ≤ maxLen ∧
    (maxLen < ((applyPrefixToReply p reply).length : Int) →
      ((postprocessReply p maxLen reply).length : Int) = maxLen ∧
      ellipsis <:+ postprocessReply p maxLen reply) := by
  set t := applyPrefixToReply p reply with ht
  unfold postprocessReply truncateReply
  rw [← ht]
  by_cases hlong : (t.length : Int) > maxLen
  · have hk : (0 : Int) ≤ maxLen - 3 := by omega
    have hslice : pySliceTo t (maxLen - 3) = t.take (maxLen - 3).toNat := by
      simp [pySliceTo, hk]
    have hlen : (t.take (maxLen - 3).toNat).length = (maxLen - 3).toNat := by
      rw [List.length_take]
      have : (maxLen - 3).toNat ≤ t.length := by
        rw [Int.toNat_le]
        omega
      omega
    have hout : ((pySliceTo t (maxLen - 3) ++ ellipsis).length : Int) = maxLen := by
      rw [hslice, List.length_append, hlen]
      have := Int.toNat_of_nonneg hk
      simp [ellipsis]
      omega
    refine ⟨?_, fun _ => ⟨?_, ?_⟩⟩
    · rw [if_pos hlong, hout]
    · rw [if_pos hlong, hout]
    · rw [if_pos hlong]
      exact List.suffix_append _ _
  · refine ⟨?_, fun hc => absurd hc (by omega)⟩
    rw [if_neg hlong]
    omega

/-- Instantiation of the amended C1 theorem at the scenario from the spec:
tweet_max_length 20 and a response prefix that alone exceeds 20
characters. The output is exactly 20 characters and ends with the
marker. -/
theorem postprocess_truncation_correct_w :
    ((postprocessReply (some (String.toList "thisprefixislongerthan20chars")) 20
        (String.toList "hi")).length : Int) = 20 ∧
    ellipsis <:+ postprocessReply (some (String.toList "thisprefixislongerthan20chars")) 20
        (String.toList "hi") :=
  (postprocess_truncation_correct (some (String.toList "thisprefixislongerthan20chars"))
    (String.toList "hi") 20 (by norm_num)).2 (by decide)

/-! ## C2: monthly counter semantics -/

/-- Within a period (last_reset already equal to the clock month) a run of
recording calls adds exactly the call counts to each counter and leaves
last_reset alone. -/
lemma runUsageOps_steady (m : Nat) (ops : List UsageOp) :
    ∀ u : UsageTracker, u.last_reset = m →
      runUsageOps m ops u =
        { reads_this_month := u.reads_this_month + countReads ops
          posts_this_month_app := u.posts_this_month_app + countPosts ops
          posts_this_month_user := u.posts_this_month_user + countPosts ops
          last_reset := m } := by
  induction ops with
  | nil =>
    intro u hu
    cases u
    simp_all [runUsageOps, countReads, countPosts]
  | cons op t ih =>
    intro u hu
    have hnr : ¬ m > u.last_reset := by omega
    cases op with
    | read =>
      have hstep : applyUsageOp m u .read =
          { u with reads_this_month := u.reads_this_month + 1 } := by
        simp [applyUsageOp, increment_read, check_reset_of_le m u hnr]
      have := ih { u with reads_this_month := u.reads_this_month + 1 } (by simpa using hu)
      simp only [runUsageOps, List.foldl_cons] at *
      rw [hstep, this]
      simp [countReads, countPosts]
      omega
    | post =>
      have hstep : applyUsageOp m u .post =
          { u with posts_this_month_app := u.posts_this_month_app + 1
                   posts_this_month_user := u.posts_this_month_user + 1 } := by
        simp [applyUsageOp, increment_post, check_reset_of_le m u hnr]
      have := ih { u with posts_this_month_app := u.posts_this_month_app + 1
                          posts_this_month_user := u.posts_this_month_user + 1 }
        (by simpa using hu)
      simp only [runUsageOps, List.foldl_cons] at *
      rw [hstep, this]
      simp [countReads, countPosts]
      omega

/-- Crossing a month boundary makes the next recording call behave as if
the tracker had just been re-initialised at the new month. -/
lemma applyUsageOp_after_boundary (m : Nat) (u : UsageTracker) (op : UsageOp)
    (h : u.last_reset < m) :
    applyUsageOp m u op = applyUsageOp m (UsageTracker.init m) op := by
  have h1 : check_reset m u = UsageTracker.init m := by
    simp [check_reset, h, UsageTracker.init]
  have h2 : check_reset m (UsageTracker.init m) = UsageTracker.init m := by
    simp [check_reset, UsageTracker.init]
  cases op <;> simp [applyUsageOp, increment_read, increment_post, h1, h2]

/-- C2: within one calendar month every counter advances by exactly the
number of corresponding recording calls (hence counters are monotonically
non-decreasing inside a period), and when the wall-clock month has advanced
past the period start, the first subsequent call resets all three counters
and moves the period start, after which the whole run counts from zero —
the reset happens exactly once per boundary crossing. -/
theorem usage_counters_month_semantics (m : Nat) (ops : List UsageOp)
    (u : UsageTracker) :
    (u.last_reset = m →
      runUsageOps m ops u =
        { reads_this_month := u.reads_this_month + countReads ops
          posts_this_month_app := u.posts_this_month_app + countPosts ops
          posts_this_month_user := u.posts_this_month_user + countPosts ops
          last_reset := m }) ∧
    (u.last_reset < m → ops ≠ [] →
      runUsageOps m ops u =
        { reads_this_month := countReads ops
          posts_this_month_app := countPosts ops
          posts_this_month_user := countPosts ops
          last_reset := m }) := by
  constructor
  · exact fun hu => runUsageOps_steady m ops u hu
  · intro hlt hne
    cases ops with
    | nil => exact absurd rfl hne
    | cons op t =>
      have hfirst : runUsageOps m (op :: t) u = runUsageOps m (op :: t) (UsageTracker.init m) := by
        simp only [runUsageOps, List.foldl_cons]
        rw [applyUsageOp_after_boundary m u op hlt]
      rw [hfirst, runUsageOps_steady m (op :: t) (UsageTracker.init m) rfl]
      simp [UsageTracker.init]

/-- Instantiation of the C2 theorem: a read-post-read run inside month 5
yields counters 2, 1, 1, and a read-post run after the clock moved to
month 6 resets and then counts 1, 1, 1 with the period start advanced. -/
theorem usage_counters_month_semantics_w :
    runUsageOps 5 [.read, .post, .read] (UsageTracker.init 5) =
      { reads_this_month := 2
        posts_this_month_app := 1
        posts_this_month_user := 1
        last_reset := 5 } ∧
    runUsageOps 6 [.read, .post] (UsageTracker.init 5) =
      { reads_this_month := 1
        posts_this_month_app := 1
        posts_this_month_user := 1
        last_reset := 6 } :=
  ⟨(usage_counters_month_semantics 5 [.read, .post, .read] (UsageTracker.init 5)).1 rfl,
   (usage_counters_month_semantics 6 [.read, .post] (UsageTracker.init 5)).2
     (by decide) (by decide)⟩

/-! ## C6: advisory warnings on the recording calls -/

/-- C6: after the rollover check, increment_read always adds one to the
read counter and returns (never blocks or rejects), logging the warning
exactly when the post-increment value exceeds 100; increment_post always
adds one to each of the two post counters, logging the app-level and the
user-level warning independently, each exactly when that post-increment
counter exceeds 500. -/
theorem record_calls_advisory (m : Nat) (u : UsageTracker) :
    (increment_read m u).1.reads_this_month
      = (check_reset m u).reads_this_month + 1 ∧
    ((increment_read m u).2 = true ↔
      100 < (check_reset m u).reads_this_month + 1) ∧
    (increment_post m u).1.posts_this_month_app
      = (check_reset m u).posts_this_month_app + 1 ∧
    (increment_post m u).1.posts_this_month_user
      = (check_reset m u).posts_this_month_user + 1 ∧
    ((increment_post m u).2.1 = true ↔
      500 < (check_reset m u).posts_this_month_app + 1) ∧
    ((increment_post m u).2.2 = true ↔
      500 < (check_reset m u).posts_this_month_user + 1) := by
  simp [increment_read, increment_post]

/-- Instantiation of the C6 theorem at month 3 on a tracker holding 100
reads and 500 posts inside the current period: the next read and the next
post each increment and trip their warnings. -/
theorem record_calls_advisory_w :
    (increment_read 3 ⟨100, 500, 500, 3⟩).1.reads_this_month
      = (check_reset 3 ⟨100, 500, 500, 3⟩).reads_this_month + 1 ∧
    ((increment_read 3 ⟨100, 500, 500, 3⟩).2 = true ↔
      100 < (check_reset 3 ⟨100, 500, 500, 3⟩).reads_this_month + 1) ∧
    (increment_post 3 ⟨100, 500, 500, 3⟩).1.posts_this_month_app
      = (check_reset 3 ⟨100, 500, 500, 3⟩).posts_this_month_app + 1 ∧
    (increment_post 3 ⟨100, 500, 500, 3⟩).1.posts_this_month_user
      = (check_reset 3 ⟨100, 500, 500, 3⟩).posts_this_month_user + 1 ∧
    ((increment_post 3 ⟨100, 500, 500, 3⟩).2.1 = true ↔
      500 < (check_reset 3 ⟨100, 500, 500, 3⟩).posts_this_month_app + 1) ∧
    ((increment_post 3 ⟨100, 500, 500, 3⟩).2.2 = true ↔
      500 < (check_reset 3 ⟨100, 500, 500, 3⟩).posts_this_month_user + 1) :=
  record_calls_advisory 3 ⟨100, 500, 500, 3⟩

/-! ## C9: the two post counters never diverge -/

/-- Every tracker call preserves equality of the two post counters. -/
lemma applyTrackerOp_preserves_posts_eq (u : UsageTracker) (op : TrackerOp)
    (h : u.posts_this_month_app = u.posts_this_month_user) :
    (applyTrackerOp u op).posts_this_month_app
      = (applyTrackerOp u op).posts_this_month_user := by
  cases op with
  | read m =>
    simp only [applyTrackerOp, increment_read]
    unfold check_reset
    split <;> simp [h]
  | post m =>
    simp only [applyTrackerOp, increment_post]
    unfold check_reset
    split <;> simp [h]
  | stats m =>
    simp only [applyTrackerOp, get_usage_stats]
    unfold check_reset
    split <;> simp [h]

/-- C9: in every state reachable from a freshly constructed tracker by any
sequence of increment_read, increment_post and get_usage_stats calls (at
arbitrary months), posts_this_month_app equals posts_this_month_user:
both start at zero, increment_post raises both together, and the rollover
zeroes both together. -/
theorem posts_app_eq_posts_user (m0 : Nat) (ops : List TrackerOp) :
    (ops.foldl applyTrackerOp (UsageTracker.init m0)).posts_this_month_app
      = (ops.foldl applyTrackerOp (UsageTracker.init m0)).posts_this_month_user := by
  suffices h : ∀ u : UsageTracker,
      u.posts_this_month_app = u.posts_this_month_user →
      (ops.foldl applyTrackerOp u).posts_this_month_app
        = (ops.foldl applyTrackerOp u).posts_this_month_user from
    h (UsageTracker.init m0) rfl
  induction ops with
  | nil => exact fun u h => h
  | cons op t ih =>
    intro u h
    exact ih (applyTrackerOp u op) (applyTrackerOp_preserves_posts_eq u op h)

/-! ## C7: dedup cache semantics -/

/-- Membership survives any further sequence of insertions. -/
lemma mem_foldl_mark_processed (ids : List Nat) :
    ∀ s : Finset Nat, ∀ id : Nat, id ∈ s → id ∈ ids.foldl mark_processed s := by
  induction ids with
  | nil => exact fun s id h => h
  | cons i t ih =>
    intro s id h
    exact ih (mark_processed s i) id (Finset.mem_insert_of_mem h)

/-- C7: a marked id tests as processed immediately and after any further
sequence of mark calls (until a clear); marking an already present id
leaves the set unchanged; clear reports exactly the prior cardinality and
leaves the empty set, so a second consecutive clear reports zero. -/
theorem dedup_cache_semantics (s : Finset Nat) (id : Nat) (ids : List Nat) :
    is_processed (mark_processed s id) id = true ∧
    is_processed (ids.foldl mark_processed (mark_processed s id)) id = true ∧
    mark_processed (mark_processed s id) id = mark_processed s id ∧
    (clear_processed s).1 = s.card ∧
    (clear_processed s).2 = ∅ ∧
    (clear_processed (clear_processed s).2).1 = 0 := by
  refine ⟨?_, ?_, ?_, rfl, rfl, ?_⟩
  · simp [is_processed, mark_processed]
  · simp only [is_processed, decide_eq_true_eq]
    exact mem_foldl_mark_processed ids (mark_processed s id) id
      (Finset.mem_insert_self id s)
  · simp [mark_processed, Finset.insert_idem]
  · simp [clear_processed]

/-! ## C4: the at-most-one-worker invariant is violated by a reachable state -/

/-- C4: the control-plane sequence enable, disable, enable — legal because
the first worker thread is still inside its current cycle and has not yet
re-evaluated its loop condition — leaves two live worker threads, and at
that state a worker re-evaluating the loop condition finds
mention_check_running and enabled both true, so neither thread exits:
the two workers poll concurrently from then on. -/
theorem enable_disable_enable_two_workers :
    (schedRun [.enable, .disable, .enable]).workers = 2 ∧
    (schedRun [.enable, .disable, .enable]).mention_check_running = true ∧
    (schedRun [.enable, .disable, .enable]).enabled = true ∧
    workerRecheck (schedRun [.enable, .disable, .enable]) =
      schedRun [.enable, .disable, .enable] := by
  decide

/-! ## C8: configure_bot performs no validation -/

/-- C8 counterexample: a configuration with a zero poll interval and a zero
reply length — invalid under the constraints the spec states — is accepted
by configure_bot and replaces the stored configuration, so the prior state
is not retained. -/
theorem configure_accepts_invalid :
    specValidConfig invalidConfig = false ∧
    configure_bot initialBotConfig invalidConfig = invalidConfig ∧
    (configure_bot initialBotConfig invalidConfig).check_interval_seconds
      ≠ initialBotConfig.check_interval_seconds := by
  refine ⟨rfl, rfl, ?_⟩
  decide

/-- C8 (amended): configure_bot validates nothing — every submitted
configuration, whether or not it satisfies the validity constraints the
spec states for BotConfig, replaces the stored configuration wholesale. -/
theorem configure_replaces_wholesale (old c : BotConfig)
    (_h : specValidConfig c = false) :
    configure_bot old c = c := rfl

/-- Instantiation of the amended C8 theorem at the invalid configuration. -/
theorem configure_replaces_wholesale_w :
    configure_bot initialBotConfig invalidConfig = invalidConfig :=
  configure_replaces_wholesale initialBotConfig invalidConfig rfl

/-! ## C3: the three-mention scenario and the structured cycle result -/

/-- C3: fetching three mentions of which the first is already in the dedup
set, with every submission succeeding, yields the summary value
processed 2 (two mentions attempted, both succeeded — the countP conjunct
counts the mentions not skipped by dedup), grows the dedup set by exactly
the two new ids, and increments both post counters by exactly two; and a
fetch failure is converted into the structured error outcome rather than
propagating to the caller. -/
theorem cycle_scenario_summary :
    ((process_mentions scenarioConfig (fun t => t) (fun _ _ => true) 7
        (.ok scenarioMentions) scenarioState).2 = .processed 2 ∧
      (process_mentions scenarioConfig (fun t => t) (fun _ _ => true) 7
        (.ok scenarioMentions) scenarioState).1.processed_mentions = {1, 2, 3} ∧
      (process_mentions scenarioConfig (fun t => t) (fun _ _ => true) 7
        (.ok scenarioMentions) scenarioState).1.processed_mentions.card
        = scenarioState.processed_mentions.card + 2 ∧
      (process_mentions scenarioConfig (fun t => t) (fun _ _ => true) 7
        (.ok scenarioMentions) scenarioState).1.usage.posts_this_month_app
        = scenarioState.usage.posts_this_month_app + 2 ∧
      (process_mentions scenarioConfig (fun t => t) (fun _ _ => true) 7
        (.ok scenarioMentions) scenarioState).1.usage.posts_this_month_user
        = scenarioState.usage.posts_this_month_user + 2 ∧
      scenarioMentions.countP
        (fun mn => !is_processed scenarioState.processed_mentions mn.id) = 2) ∧
    (process_mentions scenarioConfig (fun t => t) (fun _ _ => true) 7
      (.error ()) scenarioState).2 = .error := by
  decide

/-! ## C5: a failed submission is isolated to its mention -/

/-- Unfolding of one loop iteration with its let bindings reduced. -/
lemma processOneMention_eq (cfg : BotConfig) (llmGen : List Char → List Char)
    (submitOk : Nat → List Char → Bool) (m : Nat) (st : BotState) (rc : Nat)
    (mn : Mention) :
    processOneMention cfg llmGen submitOk m st rc mn =
      if cfg.store_processed_mentions ∧ mn.id ∈ st.processed_mentions then
        (st, rc)
      else if submitOk mn.id (postprocessReply ( BotConfig.response_prefix cfg)
          cfg.tweet_max_length
          (if cfg.use_llm then llmGen mn.text else generate_simple_reply mn.text)) then
        ({ processed_mentions :=
             if cfg.store_processed_mentions then insert mn.id st.processed_mentions
             else st.processed_mentions
           usage := (increment_post m st.usage).1 }, rc + 1)
      else (st, rc) := rfl

/-- Unfolding of a cycle on a successful fetch. -/
lemma process_mentions_ok_eq (cfg : BotConfig) (llmGen : List Char → List Char)
    (submitOk : Nat → List Char → Bool) (m : Nat) (ms : List Mention)
    (st : BotState) :
    process_mentions cfg llmGen submitOk m (.ok ms) st =
      if ms.isEmpty then
        ({ st with usage := (increment_read m st.usage).1 }, .noMentions)
      else
        ((processMentionList cfg llmGen submitOk m ms
            { st with usage := (increment_read m st.usage).1 } 0).1,
         .processed (processMentionList cfg llmGen submitOk m ms
            { st with usage := (increment_read m st.usage).1 } 0).2) := rfl

/-- Unfolding of a cycle on a failed fetch. -/
lemma process_mentions_error_eq (cfg : BotConfig) (llmGen : List Char → List Char)
    (submitOk : Nat → List Char → Bool) (m : Nat) (e : Unit) (st : BotState) :
    process_mentions cfg llmGen submitOk m (.error e) st =
      ({ st with usage := (increment_read m st.usage).1 }, .error) := rfl

/-- C5: when the external create_tweet call fails for one mention, that
iteration leaves the dedup set, the usage counters and the reply count
untouched — mark_processed and increment_post run only after a successful
submission — and the batch result is exactly the result of processing the
remaining mentions: the failure does not abort the rest of the batch. -/
theorem submission_failure_isolated (cfg : BotConfig)
    (llmGen : List Char → List Char) (submitOk : Nat → List Char → Bool)
    (m : Nat) (mfail : Mention) (l1 l2 : List Mention) (st : BotState)
    (rc : Nat) (h : ∀ r : List Char, submitOk (Mention.id mfail) r = false) :
    processMentionList cfg llmGen submitOk m (l1 ++ mfail :: l2) st rc
      = processMentionList cfg llmGen submitOk m (l1 ++ l2) st rc ∧
    (∀ st2 : BotState, ∀ rc2 : Nat,
      processOneMention cfg llmGen submitOk m st2 rc2 mfail = (st2, rc2)) := by
  have hone : ∀ st2 : BotState, ∀ rc2 : Nat,
      processOneMention cfg llmGen submitOk m st2 rc2 mfail = (st2, rc2) := by
    intro st2 rc2
    rw [processOneMention_eq]
    by_cases h1 : cfg.store_processed_mentions = true ∧ mfail.id ∈ st2.processed_mentions
    · rw [if_pos h1]
    · rw [if_neg h1, h]
      simp
  refine ⟨?_, hone⟩
  simp only [processMentionList, List.foldl_append, List.foldl_cons]
  rw [hone]

/-- Instantiation of the C5 theorem: a single-mention batch whose
submission fails leaves the initial state and count unchanged, matching
the empty batch. -/
theorem submission_failure_isolated_w :
    processMentionList initialBotConfig (fun t => t) (fun _ _ => false) 0
      ([] ++ (⟨5, 6, String.toList "x"⟩ : Mention) :: []) ⟨∅, UsageTracker.init 0⟩ 0
      = processMentionList initialBotConfig (fun t => t) (fun _ _ => false) 0
        ([] ++ []) ⟨∅, UsageTracker.init 0⟩ 0 ∧
    (∀ st2 : BotState, ∀ rc2 : Nat,
      processOneMention initialBotConfig (fun t => t) (fun _ _ => false) 0 st2 rc2
        ⟨5, 6, String.toList "x"⟩ = (st2, rc2)) :=
  submission_failure_isolated initialBotConfig (fun t => t) (fun _ _ => false) 0
    ⟨5, 6, String.toList "x"⟩ [] [] ⟨∅, UsageTracker.init 0⟩ 0 (fun _ => rfl)

/-! ## C10: the read is counted before the fetch is attempted -/

/-- Inside the current period, increment_post leaves the read counter and
the period start untouched. -/
lemma increment_post_fields (m : Nat) (u : UsageTracker)
    (h : ¬ m > u.last_reset) :
    (increment_post m u).1.reads_this_month = u.reads_this_month ∧
    (increment_post m u).1.last_reset = u.last_reset := by
  simp [increment_post, check_reset_of_le m u h]

/-- After a processing step at month m, the read counter and the fact that
the clock month is not ahead of last_reset are both preserved. -/
lemma processOneMention_preserves_reads (cfg : BotConfig)
    (llmGen : List Char → List Char) (submitOk : Nat → List Char → Bool)
    (m : Nat) (st : BotState) (rc : Nat) (mn : Mention)
    (h : ¬ m > st.usage.last_reset) :
    (processOneMention cfg llmGen submitOk m st rc mn).1.usage.reads_this_month
      = st.usage.reads_this_month ∧
    ¬ m > (processOneMention cfg llmGen submitOk m st rc mn).1.usage.last_reset := by
  rw [processOneMention_eq]
  by_cases h1 : cfg.store_processed_mentions = true ∧ mn.id ∈ st.processed_mentions
  · rw [if_pos h1]
    exact ⟨rfl, h⟩
  · rw [if_neg h1]
    by_cases h2 : submitOk mn.id (postprocessReply ( BotConfig.response_prefix cfg)
        cfg.tweet_max_length
        (if cfg.use_llm then llmGen mn.text else generate_simple_reply mn.text)) = true
    · rw [if_pos h2]
      constructor
      · exact (increment_post_fields m st.usage h).1
      · show ¬ m > (increment_post m st.usage).1.last_reset
        rw [(increment_post_fields m st.usage h).2]
        exact h
    · rw [if_neg h2]
      exact ⟨rfl, h⟩

/-- The batch loop preserves the read counter and the in-period property. -/
lemma processMentionList_preserves_reads (cfg : BotConfig)
    (llmGen : List Char → List Char) (submitOk : Nat → List Char → Bool)
    (m : Nat) (ms : List Mention) :
    ∀ st : BotState, ∀ rc : Nat, ¬ m > st.usage.last_reset →
      (processMentionList cfg llmGen submitOk m ms st rc).1.usage.reads_this_month
        = st.usage.reads_this_month ∧
      ¬ m > (processMentionList cfg llmGen submitOk m ms st rc).1.usage.last_reset := by
  induction ms with
  | nil => exact fun st rc h => ⟨rfl, h⟩
  | cons mn t ih =>
    intro st rc h
    have hstep := processOneMention_preserves_reads cfg llmGen submitOk m st rc mn h
    have := ih (processOneMention cfg llmGen submitOk m st rc mn).1
      (processOneMention cfg llmGen submitOk m st rc mn).2 hstep.2
    simp only [processMentionList, List.foldl_cons] at *
    exact ⟨by rw [this.1, hstep.1], this.2⟩

/-- C10: every cycle increments the read counter exactly once, before the
account-identity and mentions fetches are attempted, so the final read
count is one more than the rollover-checked count on entry on every path —
in particular on a fetch failure, which yields the structured error
outcome with the read already recorded. -/
theorem read_counted_before_fetch (cfg : BotConfig)
    (llmGen : List Char → List Char) (submitOk : Nat → List Char → Bool)
    (m : Nat) (fetched : Except Unit (List Mention)) (st : BotState) :
    (process_mentions cfg llmGen submitOk m fetched st).1.usage.reads_this_month
      = (check_reset m st.usage).reads_this_month + 1 ∧
    (process_mentions cfg llmGen submitOk m (Except.error ()) st).2 = .error := by
  refine ⟨?_, rfl⟩
  have hper : ¬ m > ((increment_read m st.usage).1).last_reset := by
    simp only [increment_read]
    rw [check_reset_last_reset]
    omega
  have hreads : ((increment_read m st.usage).1).reads_this_month
      = (check_reset m st.usage).reads_this_month + 1 := rfl
  cases fetched with
  | error e =>
    rw [process_mentions_error_eq]
    exact hreads
  | ok ms =>
    rw [process_mentions_ok_eq]
    split
    · exact hreads
    · exact ((processMentionList_preserves_reads cfg llmGen submitOk m ms
        { st with usage := (increment_read m st.usage).1 } 0 hper).1).trans hreads

end TwitterBot
